import Mathlib

/-!
Verification of the HurricaneFPGA host-side tooling.

Shallow embedding of the Python sources:
* `src/HDL/tools/usb_host_control.py` — register map constants, the
  enumeration-status reader, the mouse-report reader and the keyboard
  report decoder of class `CynthionUSBHost`;
* `src/tools/test_injection.py` — the `SCANCODES` table and modifier
  constants;
* `src/tools/test_injection_unit.py` — the recoil-pattern capacity test
  (`MAX_STEPS`, the 21-triplet pattern);
* `src/tools/test_descriptor.py` — `DescriptorTester.add_descriptor`
  command rendering.

Register reads/writes go through an abstract oracle `Nat → Option Nat`
(a read may fail, mirroring `read_register` returning `None`) resp.
`Nat → Nat → Bool` (a write may fail, mirroring `write_register`
returning `False`).
-/

/-! ## Register map (usb_host_control.py, class constants) -/

def REG_HOST_MODE_ENABLE : Nat := 0x00
def REG_ENUM_START : Nat := 0x01
def REG_ENUM_DONE : Nat := 0x02
def REG_ENUM_ERROR : Nat := 0x03
def REG_ENUM_ERROR_CODE : Nat := 0x04
def REG_VENDOR_ID_LO : Nat := 0x10
def REG_VENDOR_ID_HI : Nat := 0x11
def REG_PRODUCT_ID_LO : Nat := 0x12
def REG_PRODUCT_ID_HI : Nat := 0x13
def REG_KBD_ACTIVE : Nat := 0x20
def REG_KBD_REPORT_BASE : Nat := 0x30
def REG_MOUSE_ACTIVE : Nat := 0x40
def REG_MOUSE_BUTTONS : Nat := 0x50
def REG_MOUSE_DELTA_X : Nat := 0x51
def REG_MOUSE_DELTA_Y : Nat := 0x52
def REG_MOUSE_WHEEL : Nat := 0x53

/-! ## Keyboard tables

`modifier_names` and `keycode_names` are the two literal dictionaries in
`CynthionUSBHost.decode_keyboard_report`, in their Python insertion
order.  `SCANCODES` is the module-level table of `test_injection.py`. -/

def modifier_names : List (Nat × String) :=
  [(0x01, "LEFT_CTRL"), (0x02, "LEFT_SHIFT"), (0x04, "LEFT_ALT"),
   (0x08, "LEFT_GUI"), (0x10, "RIGHT_CTRL"), (0x20, "RIGHT_SHIFT"),
   (0x40, "RIGHT_ALT"), (0x80, "RIGHT_GUI")]

def keycode_names : List (Nat × String) :=
  [(0x04, "A"), (0x05, "B"), (0x06, "C"), (0x07, "D"), (0x08, "E"),
   (0x09, "F"), (0x0A, "G"), (0x0B, "H"), (0x0C, "I"), (0x0D, "J"),
   (0x0E, "K"), (0x0F, "L"), (0x10, "M"), (0x11, "N"), (0x12, "O"),
   (0x13, "P"), (0x14, "Q"), (0x15, "R"), (0x16, "S"), (0x17, "T"),
   (0x18, "U"), (0x19, "V"), (0x1A, "W"), (0x1B, "X"), (0x1C, "Y"),
   (0x1D, "Z"),
   (0x1E, "1"), (0x1F, "2"), (0x20, "3"), (0x21, "4"), (0x22, "5"),
   (0x23, "6"), (0x24, "7"), (0x25, "8"), (0x26, "9"), (0x27, "0"),
   (0x28, "ENTER"), (0x29, "ESC"), (0x2A, "BACKSPACE"), (0x2B, "TAB"),
   (0x2C, "SPACE"), (0x39, "CAPS_LOCK")]

def SCANCODES : List (String × Nat) :=
  [("A", 0x04), ("B", 0x05), ("C", 0x06), ("D", 0x07), ("E", 0x08),
   ("F", 0x09), ("G", 0x0A), ("H", 0x0B), ("I", 0x0C), ("J", 0x0D),
   ("K", 0x0E), ("L", 0x0F), ("M", 0x10), ("N", 0x11), ("O", 0x12),
   ("P", 0x13), ("Q", 0x14), ("R", 0x15), ("S", 0x16), ("T", 0x17),
   ("U", 0x18), ("V", 0x19), ("W", 0x1A), ("X", 0x1B), ("Y", 0x1C),
   ("Z", 0x1D),
   ("1", 0x1E), ("2", 0x1F), ("3", 0x20), ("4", 0x21), ("5", 0x22),
   ("6", 0x23), ("7", 0x24), ("8", 0x25), ("9", 0x26), ("0", 0x27),
   (" ", 0x2C), ("\n", 0x28), ("\t", 0x2B)]

/-- Claim C5: the eight keyboard modifier bit values are pairwise
disjoint powers of two, assigned in bit order: the entry at index k of
the modifier table carries bit value 2^k, for bit0 = LEFT_CTRL (0x01)
through bit7 = RIGHT_GUI (0x80). -/
theorem modifier_bits_disjoint_powers_of_two :
    List.Pairwise (fun p q => p.1 &&& q.1 = 0) modifier_names ∧
    (modifier_names.all fun p =>
      (List.range 8).any fun k => p.1 == 2 ^ k) = true ∧
    modifier_names.map Prod.fst = (List.range 8).map (fun k => 2 ^ k) ∧
    modifier_names.map Prod.snd =
      ["LEFT_CTRL", "LEFT_SHIFT", "LEFT_ALT", "LEFT_GUI",
       "RIGHT_CTRL", "RIGHT_SHIFT", "RIGHT_ALT", "RIGHT_GUI"] := by
  refine ⟨?_, by decide, by decide, by decide⟩
  decide

/-- Claim C6: the scancodes for the letters A..Z are sequential from
0x04 (the i-th letter maps to 0x04 + i, so A = 0x04 and Z = 0x1D), and
all scancode values of the `SCANCODES` table are distinct; the decoder
table `keycode_names` inverts the same assignment on the letters. -/
theorem scancodes_letters_sequential :
    ((List.range 26).all fun i =>
      SCANCODES.lookup (String.mk [Char.ofNat (65 + i)]) ==
        some (0x04 + i)) = true ∧
    (SCANCODES.map Prod.snd).Nodup ∧
    ((List.range 26).all fun i =>
      keycode_names.lookup (0x04 + i) ==
        some (String.mk [Char.ofNat (65 + i)])) = true := by
  refine ⟨by decide, ?_, by decide⟩
  decide

/-! ## Hex formatting

`format02x` embeds Python's `f"{b:02x}"`: lowercase hexadecimal digits,
zero-padded on the left to a minimum width of two.  `report_hex` embeds
`bytes.hex()` (the concatenation of the two-digit groups). -/

def format02x (b : Nat) : String :=
  let s := (Nat.toDigits 16 b).asString
  if s.length < 2 then "0" ++ s else s

def report_hex (report : List Nat) : String :=
  String.join (report.map format02x)

/-! ## Keyboard report decoder (`CynthionUSBHost.decode_keyboard_report`)

The Python function returns `{}` for inputs that are not exactly 8
bytes, embedded here as `none`; a populated decode dictionary is
embedded as `some` of a `KeyboardDecoded` record. -/

structure KeyboardDecoded where
  modifiers : List String
  keys : List String
  raw : String
deriving Repr, DecidableEq

def keycode_name (b : Nat) : String :=
  match keycode_names.lookup b with
  | some n => n
  | none => "KEY_" ++ format02x b

def decode_keyboard_report (report : List Nat) : Option KeyboardDecoded :=
  if report.length ≠ 8 then none
  else some
    { modifiers := modifier_names.filterMap fun p =>
        if report.getD 0 0 &&& p.1 != 0 then some p.2 else none,
      keys := (List.range' 2 6).filterMap fun i =>
        if report.getD i 0 != 0 then
          some (keycode_name (report.getD i 0))
        else none,
      raw := report_hex report }

lemma filterMap_guard_eq {α β : Type} (p : α → Bool) (f : α → β)
    (l : List α) :
    (l.filterMap fun a => if p a then some (f a) else none) =
      (l.filter p).map f := by
  induction l with
  | nil => rfl
  | cons a t ih =>
    by_cases h : p a <;>
      simp [List.filterMap_cons, List.filter_cons, h, ih]

/-- Claim C3: on any 8-byte report, `decode_keyboard_report` decodes the
modifiers as exactly the names of the bits set in byte 0 (in table
order), and the keys as one entry per non-zero byte among bytes 2–7, in
byte order, skipping zero bytes.  The embedding is a pure function of
the report, so the input report is not modified. -/
theorem decode_keyboard_report_fields (report : List Nat)
    (h : report.length = 8) :
    ∃ d, decode_keyboard_report report = some d ∧
      d.modifiers = (modifier_names.filter fun p =>
        report.getD 0 0 &&& p.1 != 0).map Prod.snd ∧
      (∀ s, s ∈ d.modifiers ↔ ∃ p ∈ modifier_names,
        report.getD 0 0 &&& p.1 ≠ 0 ∧ s = p.2) ∧
      d.keys = ((report.drop 2).filter fun b => b != 0).map keycode_name := by
  match report, h with
  | [b0, b1, b2, b3, b4, b5, b6, b7], _ =>
    refine ⟨_, rfl, ?_, ?_, ?_⟩
    · exact filterMap_guard_eq _ _ _
    · intro s
      have h2 : s ∈ (modifier_names.filterMap fun p =>
          if b0 &&& p.1 != 0 then some p.2 else none) ↔
          ∃ p ∈ modifier_names, b0 &&& p.1 ≠ 0 ∧ s = p.2 := by
        rw [filterMap_guard_eq]
        simp [List.mem_map, List.mem_filter]
      exact h2
    · have h3 : (([2, 3, 4, 5, 6, 7] : List Nat).filterMap fun i =>
          if ([b0, b1, b2, b3, b4, b5, b6, b7] : List Nat).getD i 0 != 0 then
            some (keycode_name
              (([b0, b1, b2, b3, b4, b5, b6, b7] : List Nat).getD i 0))
          else none) =
          ((([2, 3, 4, 5, 6, 7] : List Nat).map fun i =>
              ([b0, b1, b2, b3, b4, b5, b6, b7] : List Nat).getD i 0).filterMap
            fun b => if b != 0 then some (keycode_name b) else none) :=
        (List.filterMap_map
          (fun i => ([b0, b1, b2, b3, b4, b5, b6, b7] : List Nat).getD i 0)
          (fun b => if b != 0 then some (keycode_name b) else none) _).symm
      have h4 : ((([2, 3, 4, 5, 6, 7] : List Nat).map fun i =>
          ([b0, b1, b2, b3, b4, b5, b6, b7] : List Nat).getD i 0)) =
          [b2, b3, b4, b5, b6, b7] := rfl
      exact h3.trans (by rw [h4]; exact filterMap_guard_eq _ _ _)

/-- Witness for C3 at the concrete report 05 00 04 00 06 00 00 1d. -/
theorem decode_keyboard_report_fields_witness :
    ∃ d, decode_keyboard_report [5, 0, 4, 0, 6, 0, 0, 29] = some d ∧
      d.modifiers = (modifier_names.filter fun p =>
        ([5, 0, 4, 0, 6, 0, 0, 29] : List Nat).getD 0 0 &&& p.1 != 0).map
          Prod.snd ∧
      (∀ s, s ∈ d.modifiers ↔ ∃ p ∈ modifier_names,
        ([5, 0, 4, 0, 6, 0, 0, 29] : List Nat).getD 0 0 &&& p.1 ≠ 0 ∧
          s = p.2) ∧
      d.keys = ((([5, 0, 4, 0, 6, 0, 0, 29] : List Nat).drop 2).filter
        fun b => b != 0).map keycode_name :=
  decode_keyboard_report_fields [5, 0, 4, 0, 6, 0, 0, 29] (by decide)

/-- Claim C10: for every input whose length is not exactly 8,
`decode_keyboard_report` returns the empty dictionary (embedded as
`none`), never a partial decode. -/
theorem decode_keyboard_report_bad_length (report : List Nat)
    (h : report.length ≠ 8) :
    decode_keyboard_report report = none := by
  simp [decode_keyboard_report, h]

/-- Witness for C10 at the empty report. -/
theorem decode_keyboard_report_bad_length_witness :
    decode_keyboard_report [] = none :=
  decode_keyboard_report_bad_length [] (by decide)

/-! ## Mouse report reader (`CynthionUSBHost.read_mouse_report`)

Register reads go through the oracle `read : Nat → Option Nat`; the
Python code returns `None` when any of the four reads fails.
`to_signed` is the inline conversion `raw if raw < 128 else raw - 256`;
`twos_complement_byte` is the standard two's-complement byte encoding of
a signed value, used to state that `to_signed` decodes it. -/

def to_signed (b : Nat) : Int :=
  if b < 128 then (b : Int) else (b : Int) - 256

def twos_complement_byte (v : Int) : Nat :=
  (v % 256).toNat

structure MouseReport where
  buttons : Nat
  delta_x : Int
  delta_y : Int
  wheel : Int
  left_button : Bool
  right_button : Bool
  middle_button : Bool
deriving Repr, DecidableEq

def read_mouse_report (read : Nat → Option Nat) : Option MouseReport :=
  match read REG_MOUSE_BUTTONS, read REG_MOUSE_DELTA_X,
        read REG_MOUSE_DELTA_Y, read REG_MOUSE_WHEEL with
  | some buttons, some dx, some dy, some wh =>
      some { buttons := buttons,
             delta_x := to_signed dx,
             delta_y := to_signed dy,
             wheel := to_signed wh,
             left_button := buttons &&& 0x01 != 0,
             right_button := buttons &&& 0x02 != 0,
             middle_button := buttons &&& 0x04 != 0 }
  | _, _, _, _ => none

set_option maxRecDepth 4096 in
lemma and_pow_ne_zero_eq_testBit :
    ∀ b < 256, ((b &&& 1 != 0) = b.testBit 0) ∧
      ((b &&& 2 != 0) = b.testBit 1) ∧ ((b &&& 4 != 0) = b.testBit 2) := by
  decide

/-- Claim C4: when all four mouse registers read raw bytes in [0,255],
`read_mouse_report` converts each delta/wheel byte with the
two's-complement i8 interpretation (`to_signed`), so the decoded values
lie in [-128,127] and `to_signed` inverts `twos_complement_byte` on
[-128,127]; the three button booleans are exactly bits 0, 1 and 2 of the
buttons register. -/
theorem read_mouse_report_signed (read : Nat → Option Nat)
    (b dx dy wh : Nat)
    (hb : read REG_MOUSE_BUTTONS = some b)
    (hdx : read REG_MOUSE_DELTA_X = some dx)
    (hdy : read REG_MOUSE_DELTA_Y = some dy)
    (hwh : read REG_MOUSE_WHEEL = some wh)
    (hb255 : b ≤ 255) (hdx255 : dx ≤ 255) (hdy255 : dy ≤ 255)
    (hwh255 : wh ≤ 255) :
    ∃ r, read_mouse_report read = some r ∧
      r.delta_x = to_signed dx ∧ r.delta_y = to_signed dy ∧
      r.wheel = to_signed wh ∧
      (-128 ≤ r.delta_x ∧ r.delta_x ≤ 127) ∧
      (-128 ≤ r.delta_y ∧ r.delta_y ≤ 127) ∧
      (-128 ≤ r.wheel ∧ r.wheel ≤ 127) ∧
      r.left_button = b.testBit 0 ∧
      r.right_button = b.testBit 1 ∧
      r.middle_button = b.testBit 2 ∧
      (∀ v : Int, -128 ≤ v → v ≤ 127 →
        to_signed (twos_complement_byte v) = v) := by
  have hbit := and_pow_ne_zero_eq_testBit b (by omega)
  have hrange : ∀ c : Nat, c ≤ 255 →
      -128 ≤ to_signed c ∧ to_signed c ≤ 127 := by
    intro c hc
    simp only [to_signed]
    split <;> constructor <;> omega
  have hread : read_mouse_report read = some
      { buttons := b, delta_x := to_signed dx, delta_y := to_signed dy,
        wheel := to_signed wh, left_button := b &&& 0x01 != 0,
        right_button := b &&& 0x02 != 0,
        middle_button := b &&& 0x04 != 0 } := by
    simp only [read_mouse_report, hb, hdx, hdy, hwh]
  refine ⟨_, hread, rfl, rfl, rfl,
    hrange dx hdx255, hrange dy hdy255, hrange wh hwh255,
    hbit.1, hbit.2.1, hbit.2.2, ?_⟩
  intro v h1 h2
  simp only [to_signed, twos_complement_byte]
  split <;> omega

/-- Witness for C4 at concrete register reads 0x50↦5, 0x51↦10,
0x52↦251 (the two's-complement byte of -5), 0x53↦1. -/
theorem read_mouse_report_signed_witness :
    ∃ r, read_mouse_report (fun a =>
        if a = 0x50 then some 5 else if a = 0x51 then some 10
        else if a = 0x52 then some 251 else if a = 0x53 then some 1
        else none) = some r ∧
      r.delta_x = to_signed 10 ∧ r.delta_y = to_signed 251 ∧
      r.wheel = to_signed 1 ∧
      (-128 ≤ r.delta_x ∧ r.delta_x ≤ 127) ∧
      (-128 ≤ r.delta_y ∧ r.delta_y ≤ 127) ∧
      (-128 ≤ r.wheel ∧ r.wheel ≤ 127) ∧
      r.left_button = Nat.testBit 5 0 ∧
      r.right_button = Nat.testBit 5 1 ∧
      r.middle_button = Nat.testBit 5 2 ∧
      (∀ v : Int, -128 ≤ v → v ≤ 127 →
        to_signed (twos_complement_byte v) = v) :=
  read_mouse_report_signed _ 5 10 251 1 rfl rfl rfl rfl
    (by decide) (by decide) (by decide) (by decide)

/-! ## Enumeration status (`CynthionUSBHost.check_enumeration_status`)

The Python method starts from an all-zero status dictionary and
overwrites each field only when the corresponding register read
succeeds; VID/PID are assembled only under `done and not error`, and
only when all four identity reads succeed. -/

structure EnumStatus where
  done : Bool
  error : Bool
  error_code : Nat
  vendor_id : Nat
  product_id : Nat
  keyboard_active : Bool
  mouse_active : Bool
deriving Repr, DecidableEq

def check_enumeration_status (read : Nat → Option Nat) : EnumStatus :=
  let done : Bool := match read REG_ENUM_DONE with
    | some d => d != 0
    | none => false
  let error : Bool := match read REG_ENUM_ERROR with
    | some e => e != 0
    | none => false
  let error_code : Nat := match read REG_ENUM_ERROR_CODE with
    | some c => c
    | none => 0
  let ids : Nat × Nat :=
    if done && !error then
      match read REG_VENDOR_ID_LO, read REG_VENDOR_ID_HI,
            read REG_PRODUCT_ID_LO, read REG_PRODUCT_ID_HI with
      | some vl, some vh, some pl, some ph =>
          ((vh <<< 8) ||| vl, (ph <<< 8) ||| pl)
      | _, _, _, _ => (0, 0)
    else (0, 0)
  let keyboard_active : Bool := match read REG_KBD_ACTIVE with
    | some k => k != 0
    | none => false
  let mouse_active : Bool := match read REG_MOUSE_ACTIVE with
    | some m => m != 0
    | none => false
  ⟨done, error, error_code, ids.1, ids.2, keyboard_active, mouse_active⟩

/-- Claim C1 exactly as stated: over every combination of register read
results, a non-zero vendor or product id requires that the enum-done
register read a non-zero value and that the enum-error register read
zero. -/
def C1_claim_as_stated : Prop :=
  ∀ read : Nat → Option Nat,
    ((check_enumeration_status read).vendor_id ≠ 0 ∨
     (check_enumeration_status read).product_id ≠ 0) →
    (∃ d, read REG_ENUM_DONE = some d ∧ d ≠ 0) ∧
      read REG_ENUM_ERROR = some 0

def c1_cex_read : Nat → Option Nat := fun a =>
  if a = REG_ENUM_DONE then some 1
  else if a = REG_ENUM_ERROR then none
  else if a = REG_VENDOR_ID_LO then some 1
  else if a = REG_PRODUCT_ID_LO then some 1
  else some 0

/-- Counterexample to claim C1 as stated: when the enum-done register
reads 1, the enum-error register read FAILS (returns `None`), and the
identity registers read vid = pid = 0x0001, the code leaves `error` at
its `False` default and assembles vendor_id = product_id = 1 — yet the
enum-error register did not read zero. -/
theorem check_enumeration_status_claim_counterexample :
    ¬ C1_claim_as_stated := by
  intro hclaim
  have h := hclaim c1_cex_read (by decide)
  exact absurd h.2 (by decide)

lemma check_ids_zero (read : Nat → Option Nat)
    (h : (match read REG_ENUM_DONE with
            | some d => d != 0 | none => false) = false ∨
         (match read REG_ENUM_ERROR with
            | some e => e != 0 | none => false) = true) :
    (check_enumeration_status read).vendor_id = 0 ∧
      (check_enumeration_status read).product_id = 0 := by
  rcases h with h | h <;> simp [check_enumeration_status, h]

/-- Claim C1 (amended): vendor_id and product_id are reported as 0
unless the enum-done register reads non-zero and the enum-error read
does not return non-zero (a FAILED error read counts as "no error",
unlike the claim's "reads zero"); when done reads non-zero, no error
read returns non-zero, and all four identity reads succeed, the code
assembles vendor_id = (vid_hi <<< 8) ||| vid_lo and product_id =
(pid_hi <<< 8) ||| pid_lo; and if any single identity read fails, both
stay 0 — no partial VID/PID is exposed. -/
theorem check_enumeration_status_gating (read : Nat → Option Nat) :
    (((check_enumeration_status read).vendor_id ≠ 0 ∨
      (check_enumeration_status read).product_id ≠ 0) →
      (∃ d, read REG_ENUM_DONE = some d ∧ d ≠ 0) ∧
        ∀ e, read REG_ENUM_ERROR = some e → e = 0) ∧
    (∀ d vl vh pl ph, read REG_ENUM_DONE = some d → d ≠ 0 →
      (∀ e, read REG_ENUM_ERROR = some e → e = 0) →
      read REG_VENDOR_ID_LO = some vl → read REG_VENDOR_ID_HI = some vh →
      read REG_PRODUCT_ID_LO = some pl → read REG_PRODUCT_ID_HI = some ph →
      (check_enumeration_status read).vendor_id = (vh <<< 8) ||| vl ∧
      (check_enumeration_status read).product_id = (ph <<< 8) ||| pl) ∧
    (∀ reg, reg = REG_VENDOR_ID_LO ∨ reg = REG_VENDOR_ID_HI ∨
        reg = REG_PRODUCT_ID_LO ∨ reg = REG_PRODUCT_ID_HI →
      read reg = none →
      (check_enumeration_status read).vendor_id = 0 ∧
      (check_enumeration_status read).product_id = 0) := by
  refine ⟨?_, ?_, ?_⟩
  · intro hne
    constructor
    · by_cases hd : ∃ d, read REG_ENUM_DONE = some d ∧ d ≠ 0
      · exact hd
      · exfalso
        push_neg at hd
        have hz : (check_enumeration_status read).vendor_id = 0 ∧
            (check_enumeration_status read).product_id = 0 := by
          apply check_ids_zero
          left
          cases hread : read REG_ENUM_DONE with
          | none => rfl
          | some d => simp [hd d hread]
        rcases hne with hne | hne
        · exact hne hz.1
        · exact hne hz.2
    · intro e hre
      by_contra hene
      have hz : (check_enumeration_status read).vendor_id = 0 ∧
          (check_enumeration_status read).product_id = 0 := by
        apply check_ids_zero
        right
        simp [hre, hene]
      rcases hne with hne | hne
      · exact hne hz.1
      · exact hne hz.2
  · intro d vl vh pl ph hd hdne herr hvl hvh hpl hph
    cases hre : read REG_ENUM_ERROR with
    | none =>
      simp [check_enumeration_status, hd, hdne, hre, hvl, hvh, hpl, hph]
    | some e =>
      have he0 : e = 0 := herr e hre
      subst he0
      simp [check_enumeration_status, hd, hdne, hre, hvl, hvh, hpl, hph]
  · intro reg hreg hnone
    by_cases hcond : (match read REG_ENUM_DONE with
        | some d => d != 0 | none => false) = true ∧
        (match read REG_ENUM_ERROR with
          | some e => e != 0 | none => false) = false
    · rcases hreg with rfl | rfl | rfl | rfl <;>
        simp [check_enumeration_status, hnone, hcond.1, hcond.2]
    · apply check_ids_zero
      rcases Decidable.not_and_iff_or_not.mp hcond with h | h
      · left; simpa using h
      · right; simpa using h

def c1_good_read : Nat → Option Nat := fun a =>
  if a = REG_ENUM_DONE then some 1
  else if a = REG_ENUM_ERROR then some 0
  else if a = REG_VENDOR_ID_LO then some 0x5b
  else if a = REG_VENDOR_ID_HI then some 0x61
  else if a = REG_PRODUCT_ID_LO then some 0x3c
  else if a = REG_PRODUCT_ID_HI then some 0x1d
  else some 0

/-- Witness for the amended C1 at a concrete successful read map
(done = 1, error = 0, vid = 0x615b, pid = 0x1d3c). -/
theorem check_enumeration_status_gating_witness :
    (check_enumeration_status c1_good_read).vendor_id =
      ((0x61 : Nat) <<< 8) ||| 0x5b ∧
    (check_enumeration_status c1_good_read).product_id =
      ((0x1d : Nat) <<< 8) ||| 0x3c :=
  (check_enumeration_status_gating c1_good_read).2.1 1 0x5b 0x61 0x3c 0x1d
    rfl (by decide)
    (fun e he => by
      simp [c1_good_read, REG_ENUM_ERROR, REG_ENUM_DONE] at he
      omega)
    rfl rfl rfl rfl

/-! ## Host-mode control writes

`write_register` is abstracted as a write oracle `Nat → Nat → Bool`
(address, value ↦ success).  Each method is embedded as the pair of its
Python return value and the list of write invocations it performs, in
order.  These three methods are the only call sites of `write_register`
in `usb_host_control.py` (lines 127, 132, 138 and 141); the
`time.sleep(0.01)` between the two pulse writes has no register effect
and is not modelled. -/

def enable_host_mode (write : Nat → Nat → Bool) : Bool × List (Nat × Nat) :=
  (write REG_HOST_MODE_ENABLE 1, [(REG_HOST_MODE_ENABLE, 1)])

def disable_host_mode (write : Nat → Nat → Bool) :
    Bool × List (Nat × Nat) :=
  (write REG_HOST_MODE_ENABLE 0, [(REG_HOST_MODE_ENABLE, 0)])

def start_enumeration (write : Nat → Nat → Bool) :
    Bool × List (Nat × Nat) :=
  if write REG_ENUM_START 1 = false then
    (false, [(REG_ENUM_START, 1)])
  else
    (write REG_ENUM_START 0, [(REG_ENUM_START, 1), (REG_ENUM_START, 0)])

/-- Claim C7: `start_enumeration` pulses the enum-start register 0x01
by writing 1 and then 0, in that order; when the first write fails it
returns False without attempting the clearing write, and it returns
True exactly when both writes succeed. -/
theorem start_enumeration_pulse (write : Nat → Nat → Bool) :
    (write REG_ENUM_START 1 = false →
      start_enumeration write = (false, [(REG_ENUM_START, 1)])) ∧
    (write REG_ENUM_START 1 = true →
      (start_enumeration write).2 =
        [(REG_ENUM_START, 1), (REG_ENUM_START, 0)] ∧
      ((start_enumeration write).1 = true ↔
        write REG_ENUM_START 0 = true)) := by
  constructor <;> intro h <;> simp [start_enumeration, h]

/-- Witness for C7 with an always-succeeding write oracle. -/
theorem start_enumeration_pulse_witness :
    (start_enumeration (fun _ _ => true)).2 =
      [(REG_ENUM_START, 1), (REG_ENUM_START, 0)] ∧
    ((start_enumeration (fun _ _ => true)).1 = true ↔
      (fun _ _ => true : Nat → Nat → Bool) REG_ENUM_START 0 = true) :=
  (start_enumeration_pulse (fun _ _ => true)).2 rfl

def host_control_write_trace (write : Nat → Nat → Bool) :
    List (Nat × Nat) :=
  (enable_host_mode write).2 ++ (disable_host_mode write).2 ++
    (start_enumeration write).2

/-- Claim C8: every write the host control script ever performs targets
register 0x00 (host-mode enable) or 0x01 (enum-start); in particular it
never writes the enumeration status registers, the identity registers,
the activity flags, nor any keyboard (0x30–0x37) or mouse (0x50–0x54)
live-report register. -/
theorem host_writes_only_control_registers (write : Nat → Nat → Bool)
    (w : Nat × Nat) (hw : w ∈ host_control_write_trace write) :
    (w.1 = REG_HOST_MODE_ENABLE ∨ w.1 = REG_ENUM_START) ∧
    w.1 ∉ ([REG_ENUM_DONE, REG_ENUM_ERROR, REG_ENUM_ERROR_CODE,
      REG_VENDOR_ID_LO, REG_VENDOR_ID_HI, REG_PRODUCT_ID_LO,
      REG_PRODUCT_ID_HI, REG_KBD_ACTIVE, REG_MOUSE_ACTIVE] : List Nat) ∧
    ¬(REG_KBD_REPORT_BASE ≤ w.1 ∧ w.1 ≤ REG_KBD_REPORT_BASE + 7) ∧
    ¬(REG_MOUSE_BUTTONS ≤ w.1 ∧ w.1 ≤ REG_MOUSE_BUTTONS + 4) := by
  have hmem : w = (REG_HOST_MODE_ENABLE, 1) ∨
      w = (REG_HOST_MODE_ENABLE, 0) ∨ w = (REG_ENUM_START, 1) ∨
      w = (REG_ENUM_START, 0) := by
    by_cases h : write REG_ENUM_START 1 = false <;>
      simp [host_control_write_trace, enable_host_mode,
        disable_host_mode, start_enumeration, h] at hw <;>
      tauto
  rcases hmem with rfl | rfl | rfl | rfl <;> refine ⟨by tauto, by decide,
    by decide, by decide⟩

/-- Witness for C8: the pulse-set write (0x01, 1) is in the trace of an
always-succeeding oracle and targets a control register. -/
theorem host_writes_only_control_registers_witness :
    ((REG_ENUM_START, 1).1 = REG_HOST_MODE_ENABLE ∨
      (REG_ENUM_START, 1).1 = REG_ENUM_START) ∧
    (REG_ENUM_START, 1).1 ∉ ([REG_ENUM_DONE, REG_ENUM_ERROR,
      REG_ENUM_ERROR_CODE, REG_VENDOR_ID_LO, REG_VENDOR_ID_HI,
      REG_PRODUCT_ID_LO, REG_PRODUCT_ID_HI, REG_KBD_ACTIVE,
      REG_MOUSE_ACTIVE] : List Nat) ∧
    ¬(REG_KBD_REPORT_BASE ≤ (REG_ENUM_START, 1).1 ∧
      (REG_ENUM_START, 1).1 ≤ REG_KBD_REPORT_BASE + 7) ∧
    ¬(REG_MOUSE_BUTTONS ≤ (REG_ENUM_START, 1).1 ∧
      (REG_ENUM_START, 1).1 ≤ REG_MOUSE_BUTTONS + 4) :=
  host_writes_only_control_registers (fun _ _ => true)
    (REG_ENUM_START, 1) (by decide)

/-! ## Recoil pattern capacity
(`test_injection_unit.py`, `TestPatternValidation.test_max_pattern_steps`)

The test sets `MAX_STEPS = 64` while its own comment states "Actually
63 values = 21 triplets is max"; `max_pattern` is the Python
`[1, 2, 3] * 21`. -/

def MAX_STEPS : Nat := 64

def max_pattern : List Int :=
  (List.replicate 21 ([1, 2, 3] : List Int)).flatten

/-- Claim C2, evaluated on the code: the raw-integer cap constant
`MAX_STEPS` in the test is 64, not the claimed 63; the test's maximal
pattern of 21 triplets has 63 raw integers (a whole number of triplets,
within the cap), while 64 — the value the code actually allows — is not
a multiple of 3 and therefore not a whole number of (dx, dy, delay)
triplets. -/
theorem recoil_test_cap_mismatch :
    MAX_STEPS = 64 ∧ MAX_STEPS ≠ 63 ∧
    max_pattern.length = 21 * 3 ∧
    max_pattern.length ≤ MAX_STEPS ∧
    max_pattern.length % 3 = 0 ∧
    MAX_STEPS % 3 ≠ 0 := by
  refine ⟨rfl, by decide, by decide, by decide, by decide, by decide⟩

/-! ## Descriptor command rendering (`DescriptorTester.add_descriptor`)

`join_comma` embeds Python `",".join(parts)`; `hex_str` is the
generator expression `','.join(f"\x7bb:02x\x7d" for b in
descriptor_bytes)`; `add_descriptor_cmd` is the command string
`f"nozen.descriptor.add(...)\x7b...\x7d"` (without the newline, which
`send_command` appends). -/

def join_comma : List String → String
  | [] => ""
  | [s] => s
  | s :: rest => s ++ "," ++ join_comma rest

def hex_str (descriptor_bytes : List Nat) : String :=
  join_comma (descriptor_bytes.map format02x)

def add_descriptor_cmd (device_addr interface : Nat)
    (descriptor_bytes : List Nat) : String :=
  "nozen.descriptor.add(" ++ toString device_addr ++ "," ++
    toString interface ++ ")" ++ "\x7b" ++
    hex_str descriptor_bytes ++ "\x7d"

set_option maxRecDepth 8192 in
lemma format02x_byte : ∀ b : Fin 256, (format02x b.1).length = 2 ∧
    ((format02x b.1).toList.all fun c =>
      c.isDigit || ('a' ≤ c && c ≤ 'f')) = true ∧
    (format02x b.1).toList.count ',' = 0 := by
  decide

lemma str_data_append (s t : String) :
    (s ++ t).data = s.data ++ t.data := rfl

lemma hex_str_single (b : Nat) : hex_str [b] = format02x b := rfl

lemma hex_str_cons (b b2 : Nat) (rest : List Nat) :
    hex_str (b :: b2 :: rest) =
      format02x b ++ "," ++ hex_str (b2 :: rest) := rfl

/-- Claim C9: for a non-empty list of n descriptor bytes (each < 256),
the `descriptor.add` payload is the bytes as lowercase two-digit hex
groups separated by commas — n groups of length 2 over [0-9a-f] and
exactly n-1 commas, total length 3n-1 — and the command encloses the
payload in braces right after the (addr,iface) argument list. -/
theorem add_descriptor_payload (device_addr interface : Nat)
    (descriptor_bytes : List Nat)
    (hne : descriptor_bytes ≠ [])
    (hbytes : ∀ b ∈ descriptor_bytes, b < 256) :
    (hex_str descriptor_bytes).length = 3 * descriptor_bytes.length - 1 ∧
    (hex_str descriptor_bytes).toList.count ',' =
      descriptor_bytes.length - 1 ∧
    (∀ b ∈ descriptor_bytes, (format02x b).length = 2 ∧
      ∀ c ∈ (format02x b).toList,
        c.isDigit = true ∨ ('a' ≤ c ∧ c ≤ 'f')) ∧
    add_descriptor_cmd device_addr interface descriptor_bytes =
      "nozen.descriptor.add(" ++ toString device_addr ++ "," ++
        toString interface ++ ")" ++ "\x7b" ++
        hex_str descriptor_bytes ++ "\x7d" := by
  refine ⟨?_, ?_, ?_, rfl⟩
  · clear hne
    induction descriptor_bytes with
    | nil => simp [hex_str, join_comma]
    | cons b rest ih =>
      have hb : b < 256 := hbytes b (by simp)
      have hfb := format02x_byte ⟨b, hb⟩
      cases rest with
      | nil => rw [hex_str_single]; simpa using hfb.1
      | cons b2 rest2 =>
        have h2 : (hex_str (b2 :: rest2)).length =
            3 * (b2 :: rest2).length - 1 :=
          ih (fun x hx => hbytes x (by simp [hx]))
        rw [hex_str_cons, String.length_append, String.length_append]
        have h1 : (format02x b).length = 2 := hfb.1
        have hcomma : (",".length) = 1 := rfl
        simp only [List.length_cons] at h2 ⊢
        omega
  · clear hne
    induction descriptor_bytes with
    | nil => simp [hex_str, join_comma]
    | cons b rest ih =>
      have hb : b < 256 := hbytes b (by simp)
      have hfb := format02x_byte ⟨b, hb⟩
      cases rest with
      | nil => rw [hex_str_single]; simpa using hfb.2.2
      | cons b2 rest2 =>
        have h2 : (hex_str (b2 :: rest2)).data.count ',' =
            (b2 :: rest2).length - 1 :=
          ih (fun x hx => hbytes x (by simp [hx]))
        rw [hex_str_cons]
        show ((format02x b ++ "," ++ hex_str (b2 :: rest2)).data).count ','
          = _
        rw [str_data_append, str_data_append]
        rw [List.count_append, List.count_append]
        have h1 : (format02x b).data.count ',' = 0 := hfb.2.2
        have hc : (",".data).count ',' = 1 := rfl
        simp only [List.length_cons] at h2 ⊢
        rw [h1, hc]
        omega
  · intro b hb
    have hfb := format02x_byte ⟨b, hbytes b hb⟩
    refine ⟨hfb.1, ?_⟩
    intro c hc
    have hall := hfb.2.1
    simp only [List.all_eq_true, Bool.or_eq_true, Bool.and_eq_true,
      decide_eq_true_eq] at hall
    exact hall c hc

/-- Witness for C9 on the spec's example bytes 05 01 09 02 at
(addr, iface) = (1, 0); the rendered payload is "05,01,09,02". -/
theorem add_descriptor_payload_witness :
    ((hex_str [5, 1, 9, 2]).length = 3 * [5, 1, 9, 2].length - 1 ∧
     (hex_str [5, 1, 9, 2]).toList.count ',' = [5, 1, 9, 2].length - 1 ∧
     (∀ b ∈ [5, 1, 9, 2], (format02x b).length = 2 ∧
       ∀ c ∈ (format02x b).toList,
         c.isDigit = true ∨ ('a' ≤ c ∧ c ≤ 'f')) ∧
     add_descriptor_cmd 1 0 [5, 1, 9, 2] =
       "nozen.descriptor.add(" ++ toString (1 : Nat) ++ "," ++
         toString (0 : Nat) ++ ")" ++ "\x7b" ++
         hex_str [5, 1, 9, 2] ++ "\x7d") ∧
    hex_str [5, 1, 9, 2] = "05,01,09,02" :=
  ⟨add_descriptor_payload 1 0 [5, 1, 9, 2] (by decide) (by decide), rfl⟩
